import Mathlib

/- Shallow embedding of the greenhub reminder service (TypeScript sources:
   notification.service.ts, email.service.ts, github.service.ts, scheduler cron.ts).

   JavaScript thrown values are modelled by `Thrown`: either an Error object
   (represented by its message string) or some non-Error value.  The external
   collaborators (GitHub checker, email notifier, Resend provider) are modelled
   as behaviour oracles that the embedded functions consume, so that one Lean
   function captures the code's control flow for every behaviour of the
   collaborator. -/

inductive Thrown where
  | errorObj : String → Thrown
  | nonError : Thrown
deriving DecidableEq

/-- The expression `error instanceof Error ? error : new Error('Unknown error')`
    from notification.service.ts, lines 79 and 108: the Error object attached to
    an outcome, represented by its message. -/
def attachedError : Thrown → String
  | Thrown.errorObj msg => msg
  | Thrown.nonError => "Unknown error"

/-- The NotificationResult interface from types/index.ts: `sent: boolean`,
    optional `reason`, optional `error` (the Error represented by its message). -/
structure NotificationResult where
  sent : Bool
  reason : Option String
  error : Option String
deriving DecidableEq

/-- Behaviour of one call to `githubService.hasContributionToday`: it either
    returns a boolean or throws. -/
inductive CheckerBehavior where
  | ret : Bool → CheckerBehavior
  | throws : Thrown → CheckerBehavior
deriving DecidableEq

/-- Behaviour of one call to `emailService.sendReminder` as seen by the
    orchestrator: it either returns a boolean or throws. -/
inductive SendBehavior where
  | ret : Bool → SendBehavior
  | throws : Thrown → SendBehavior
deriving DecidableEq

/-- Observable events of one `checkAndNotify` invocation, in order:
    the checker call completing (returning or throwing), and the notifier
    being invoked. -/
inductive Event where
  | checkReturned : Bool → Event
  | checkThrew : Thrown → Event
  | sendInvoked : Event
deriving DecidableEq

/-- NotificationService.checkAndNotify (notification.service.ts lines 21-82),
    as a function of the behaviours of the two awaited calls.  Returns the
    NotificationResult together with the ordered trace of observable events.
    The `try` block wraps both awaits, so a throwing `sendReminder` is also
    caught and produces the "Exception occurred during check" outcome.
    Totality of this function is the embedding of "never throws to the
    caller". -/
def NotificationService.checkAndNotify (check : CheckerBehavior) (send : SendBehavior) :
    NotificationResult × List Event :=
  match check with
  | CheckerBehavior.throws t =>
      (⟨false, some "Exception occurred during check", some (attachedError t)⟩,
        [Event.checkThrew t])
  | CheckerBehavior.ret true =>
      (⟨false, some "User has already contributed today", none⟩,
        [Event.checkReturned true])
  | CheckerBehavior.ret false =>
      match send with
      | SendBehavior.ret true =>
          (⟨true, none, none⟩, [Event.checkReturned false, Event.sendInvoked])
      | SendBehavior.ret false =>
          (⟨false, some "Failed to send email", none⟩,
            [Event.checkReturned false, Event.sendInvoked])
      | SendBehavior.throws t =>
          (⟨false, some "Exception occurred during check", some (attachedError t)⟩,
            [Event.checkReturned false, Event.sendInvoked])

/-- NotificationService.testNotification (notification.service.ts lines 88-111):
    unconditionally calls the notifier; for a boolean return it reports that
    boolean as `sent` and always sets a reason string; a throw is caught. -/
def NotificationService.testNotification (send : SendBehavior) : NotificationResult :=
  match send with
  | SendBehavior.ret emailSent =>
      ⟨emailSent,
        some (if emailSent then "Test notification sent"
              else "Failed to send test notification"),
        none⟩
  | SendBehavior.throws t =>
      ⟨false, some "Exception occurred during test", some (attachedError t)⟩

/-- Claim C1: for every invocation of checkAndNotify and every behaviour of the
    checker and the notifier, the notifier is invoked exactly once when the
    checker returned false and never otherwise, and every notifier invocation in
    the trace is preceded by a checker-returned event. -/
theorem claim1_check_precedes_send (check : CheckerBehavior) (send : SendBehavior) :
    ((NotificationService.checkAndNotify check send).2.count Event.sendInvoked
        = if check = CheckerBehavior.ret false then 1 else 0)
    ∧ (∀ pre post,
        (NotificationService.checkAndNotify check send).2
          = pre ++ Event.sendInvoked :: post →
        ∃ b, Event.checkReturned b ∈ pre) := by
  refine ⟨?_, ?_⟩
  · rcases check with b | t
    · cases b <;> rcases send with (_ | _) | u <;>
        simp [NotificationService.checkAndNotify, List.count_cons]
    · simp [NotificationService.checkAndNotify, List.count_cons]
  · intro pre post h
    rcases check with b | t
    · cases b
      · rcases send with (_ | _) | u <;>
          rcases pre with _ | ⟨a, _ | ⟨a2, pre2⟩⟩ <;>
          simp [NotificationService.checkAndNotify] at h <;>
          exact ⟨false, by simp_all⟩
      · rcases pre with _ | ⟨a, pre⟩ <;>
          simp [NotificationService.checkAndNotify] at h
    · rcases pre with _ | ⟨a, pre⟩ <;>
        simp [NotificationService.checkAndNotify] at h

/-- Witness for C1 at a concrete input: checker returns false, notifier
    succeeds; the notifier is invoked once and only after the check returned. -/
theorem claim1_witness :
    ((NotificationService.checkAndNotify (CheckerBehavior.ret false)
        (SendBehavior.ret true)).2.count Event.sendInvoked = 1)
    ∧ (∃ b, Event.checkReturned b ∈ [Event.checkReturned false]) := by
  constructor
  · have h := (claim1_check_precedes_send (CheckerBehavior.ret false)
      (SendBehavior.ret true)).1
    simpa using h
  · exact (claim1_check_precedes_send (CheckerBehavior.ret false)
      (SendBehavior.ret true)).2 [Event.checkReturned false] [] (by rfl)

/-- Counterexample to claim C2 as stated: testNotification with a successful
    send returns sent = true together with a present reason field
    ("Test notification sent"), so "if sent = true then the reason field is
    absent" fails on testNotification. -/
theorem claim2_counterexample :
    (NotificationService.testNotification (SendBehavior.ret true)).sent = true
    ∧ (NotificationService.testNotification (SendBehavior.ret true)).reason
        = some "Test notification sent"
    ∧ ¬ (NotificationService.testNotification (SendBehavior.ret true)).reason = none := by
  refine ⟨rfl, rfl, by simp [NotificationService.testNotification]⟩

/-- Claim C2 (amended): every result of checkAndNotify satisfies the invariant
    (sent = true implies reason and error absent; sent = false implies reason
    present); every result of testNotification always carries a reason, and
    when sent = true its error field is absent. -/
theorem claim2_outcome_invariant (check : CheckerBehavior) (send : SendBehavior)
    (testSend : SendBehavior) :
    (((NotificationService.checkAndNotify check send).1.sent = true →
        (NotificationService.checkAndNotify check send).1.reason = none
        ∧ (NotificationService.checkAndNotify check send).1.error = none)
      ∧ ((NotificationService.checkAndNotify check send).1.sent = false →
        ¬ (NotificationService.checkAndNotify check send).1.reason = none))
    ∧ (¬ (NotificationService.testNotification testSend).reason = none
      ∧ ((NotificationService.testNotification testSend).sent = true →
        (NotificationService.testNotification testSend).error = none)) := by
  refine ⟨⟨?_, ?_⟩, ?_, ?_⟩
  · rcases check with b | t
    · cases b <;> rcases send with (_ | _) | u <;>
        simp [NotificationService.checkAndNotify]
    · simp [NotificationService.checkAndNotify]
  · rcases check with b | t
    · cases b <;> rcases send with (_ | _) | u <;>
        simp [NotificationService.checkAndNotify]
    · simp [NotificationService.checkAndNotify]
  · rcases testSend with b | t <;>
      simp [NotificationService.testNotification]
  · rcases testSend with (_ | _) | t <;>
      simp [NotificationService.testNotification]

/-- Witness for the amended C2 at concrete inputs: a successful send yields an
    outcome with no reason and no error, an already-contributed check yields a
    present reason. -/
theorem claim2_witness :
    ((NotificationService.checkAndNotify (CheckerBehavior.ret false)
        (SendBehavior.ret true)).1.reason = none)
    ∧ ¬ (NotificationService.checkAndNotify (CheckerBehavior.ret true)
        (SendBehavior.ret true)).1.reason = none := by
  constructor
  · exact ((claim2_outcome_invariant (CheckerBehavior.ret false) (SendBehavior.ret true)
      (SendBehavior.ret true)).1.1 rfl).1
  · exact (claim2_outcome_invariant (CheckerBehavior.ret true) (SendBehavior.ret true)
      (SendBehavior.ret true)).1.2 rfl

/-- Counterexample to claim C3 as stated: when the checker throws a non-Error
    value, the attached error is a fresh Error "Unknown error", not the caught
    value, so "the caught error attached" fails. -/
theorem claim3_counterexample :
    ((NotificationService.checkAndNotify (CheckerBehavior.throws Thrown.nonError)
        (SendBehavior.ret true)).1.error = some "Unknown error")
    ∧ ¬ (∃ msg,
        (NotificationService.checkAndNotify (CheckerBehavior.throws Thrown.nonError)
          (SendBehavior.ret true)).1.error = some msg
        ∧ Thrown.nonError = Thrown.errorObj msg) := by
  refine ⟨rfl, ?_⟩
  rintro ⟨msg, hm, ht⟩
  exact Thrown.noConfusion ht

/-- Claim C3 (amended): for every value thrown by the checker, checkAndNotify
    catches it and returns sent = false with reason "Exception occurred during
    check"; the caught error is attached when the thrown value is an Error
    instance and a fresh Error "Unknown error" is attached otherwise; the
    notifier is never invoked, and the function is total (the exception never
    propagates). -/
theorem claim3_checker_exception (t : Thrown) (send : SendBehavior) :
    NotificationService.checkAndNotify (CheckerBehavior.throws t) send
      = (⟨false, some "Exception occurred during check", some (attachedError t)⟩,
          [Event.checkThrew t])
    ∧ (NotificationService.checkAndNotify
        (CheckerBehavior.throws t) send).2.count Event.sendInvoked = 0 := by
  refine ⟨rfl, ?_⟩
  simp [NotificationService.checkAndNotify, List.count_cons]

/-- Witness for the amended C3 at a concrete input: a thrown Error with message
    "boom" is caught, attached, and the notifier is not invoked. -/
theorem claim3_witness :
    NotificationService.checkAndNotify (CheckerBehavior.throws (Thrown.errorObj "boom"))
        (SendBehavior.ret true)
      = (⟨false, some "Exception occurred during check", some "boom"⟩,
          [Event.checkThrew (Thrown.errorObj "boom")]) := by
  exact (claim3_checker_exception (Thrown.errorObj "boom") (SendBehavior.ret true)).1

/-- Claim C4: when the checker returns false, checkAndNotify returns sent = true
    on a successful send and sent = false with reason "Failed to send email" on
    a failed send (the source literal; the spec writes it lowercase), and the
    function is total in both cases. -/
theorem claim4_send_outcomes :
    (NotificationService.checkAndNotify (CheckerBehavior.ret false)
        (SendBehavior.ret true)).1 = ⟨true, none, none⟩
    ∧ (NotificationService.checkAndNotify (CheckerBehavior.ret false)
        (SendBehavior.ret false)).1
      = ⟨false, some "Failed to send email", none⟩ := by
  exact ⟨rfl, rfl⟩

/-- Claim C5: when the checker returns true, checkAndNotify returns sent = false
    with the already-contributed reason (source literal "User has already
    contributed today") and the notifier is never invoked, for every notifier
    behaviour. -/
theorem claim5_already_contributed (send : SendBehavior) :
    NotificationService.checkAndNotify (CheckerBehavior.ret true) send
      = (⟨false, some "User has already contributed today", none⟩,
          [Event.checkReturned true])
    ∧ (NotificationService.checkAndNotify
        (CheckerBehavior.ret true) send).2.count Event.sendInvoked = 0 := by
  refine ⟨rfl, ?_⟩
  simp [NotificationService.checkAndNotify, List.count_cons]

/-- Counterexample to claim C10 as stated: when sendReminder throws a non-Error
    value, testNotification attaches a fresh Error "Unknown error", not the
    caught value, so "with the error attached" fails. -/
theorem claim10_counterexample :
    ((NotificationService.testNotification (SendBehavior.throws Thrown.nonError)).error
        = some "Unknown error")
    ∧ ¬ (∃ msg,
        (NotificationService.testNotification (SendBehavior.throws Thrown.nonError)).error
          = some msg
        ∧ Thrown.nonError = Thrown.errorObj msg) := by
  refine ⟨rfl, ?_⟩
  rintro ⟨msg, hm, ht⟩
  exact Thrown.noConfusion ht

/-- Claim C10 (amended): testNotification is total over every behaviour of the
    email service: a boolean return b yields sent = b with a reason string, and
    a throw is caught and yields sent = false with reason "Exception occurred
    during test", the caught error attached when it is an Error instance and a
    fresh Error "Unknown error" otherwise. -/
theorem claim10_test_total (b : Bool) (t : Thrown) :
    NotificationService.testNotification (SendBehavior.ret b)
      = ⟨b, some (if b then "Test notification sent"
                  else "Failed to send test notification"), none⟩
    ∧ NotificationService.testNotification (SendBehavior.throws t)
      = ⟨false, some "Exception occurred during test", some (attachedError t)⟩ := by
  exact ⟨rfl, rfl⟩

/- EmailService (email.service.ts).  The Resend provider call
   `this.resend.emails.send({from, to, subject, html})` is modelled as an
   oracle from the composed request to a behaviour: acceptance (a response
   with `data` and null `error`), an error result (non-null `error`, whose
   message the code rethrows into its own catch), or a thrown value. -/

/-- The EmailOptions interface from types/index.ts. -/
structure EmailOptions where
  toAddr : String
  subject : String
  html : String
deriving DecidableEq

/-- The payload passed to `resend.emails.send` in email.service.ts lines 35-40;
    the `from` and `to` fields are named fromAddr and toAddr because `from`
    and `to` are reserved in Lean. -/
structure SendRequest where
  fromAddr : String
  toAddr : String
  subject : String
  html : String
deriving DecidableEq

/-- Behaviour of one `resend.emails.send` call: acceptance with a delivery id,
    a returned error object (by message), or a thrown value. -/
inductive ResendBehavior where
  | accepted : String → ResendBehavior
  | errorResult : String → ResendBehavior
  | throws : Thrown → ResendBehavior
deriving DecidableEq

/-- Whether the provider confirmed acceptance. -/
def ResendBehavior.isAccepted : ResendBehavior → Bool
  | ResendBehavior.accepted _ => true
  | ResendBehavior.errorResult _ => false
  | ResendBehavior.throws _ => false

/-- EmailService.generateEmailTemplate (email.service.ts lines 68-114): the HTML
    body referencing the display identifier and its profile URL.  The source
    template literal's text is reproduced with its two interpolations. -/
def EmailService.generateEmailTemplate (githubUsername : String) : String :=
  let profileUrl := "https://github.com/" ++ githubUsername
  "<!DOCTYPE html>\n<html lang=\"en\">\n<head>\n<meta charset=\"UTF-8\">\n" ++
  "<meta name=\"viewport\" content=\"width=device-width, initial-scale=1.0\">\n" ++
  "<title>GitHub Contribution Reminder</title>\n</head>\n" ++
  "<body style=\"font-family: -apple-system, BlinkMacSystemFont, \x27Segoe UI\x27, Roboto, Helvetica, Arial, sans-serif; line-height: 1.6; color: #333; max-width: 600px; margin: 0 auto; padding: 20px;\">\n" ++
  "<div style=\"background: #f6f8fa; border-radius: 10px; padding: 25px; margin-bottom: 20px;\">\n" ++
  "<p style=\"font-size: 16px; margin-bottom: 15px;\">\nHey <strong>" ++
  githubUsername ++
  "</strong>!\n</p>\n<p style=\"font-size: 16px; margin-bottom: 15px;\">\n" ++
  "It looks like you haven\x27t made any GitHub contributions today yet. Don\x27t break your streak!\n</p>\n" ++
  "<p style=\"font-size: 16px; margin-bottom: 20px;\">\n" ++
  "Every commit counts towards building your consistency and keeping your contribution graph green.\n</p>\n" ++
  "<div style=\"text-align: center; margin-top: 25px;\">\n<a href=\"" ++
  profileUrl ++
  "\"\nstyle=\"display: inline-block; background: #28a745; color: white; padding: 12px 30px; text-decoration: none; border-radius: 6px; font-weight: bold; font-size: 16px;\">\nView Your Profile\n</a>\n</div>\n</div>\n" ++
  "<div style=\"background: #fff3cd; border-left: 4px solid #ffc107; padding: 15px; border-radius: 5px; margin-bottom: 20px;\">\n" ++
  "<p style=\"margin: 0; font-size: 14px; color: #856404;\">\n<strong>💡 Quick Ideas:</strong> Fix a typo, update documentation, commit work in progress, or work on a side project!\n</p>\n</div>\n" ++
  "<div style=\"text-align: center; padding-top: 20px; border-top: 2px solid #e1e4e8; color: #586069; font-size: 12px;\">\n" ++
  "<p style=\"margin: 5px 0;\">GreenHub - Your GitHub Contribution Reminder</p>\n" ++
  "<p style=\"margin: 5px 0;\">Keep the streak alive! 🔥</p>\n</div>\n</body>\n</html>\n"

/-- The single request that one sendReminder call composes and hands to the
    provider (email.service.ts lines 29-40). -/
def EmailService.buildRequest (fromEmail toEmail githubUsername : String) : SendRequest :=
  let emailOptions : EmailOptions :=
    ⟨toEmail, "GitHub Contribution Reminder", EmailService.generateEmailTemplate githubUsername⟩
  ⟨fromEmail, emailOptions.toAddr, emailOptions.subject, emailOptions.html⟩

/-- EmailService.sendReminder (email.service.ts lines 27-61) as a function of
    the provider oracle.  Returns the boolean result together with the list of
    delivery attempts made (the requests handed to the provider).  A non-null
    `error` in the response is rethrown inside the try and caught by the
    method's own catch, which returns false; a throw from the provider is
    likewise caught and returns false.  Totality embeds "never propagates". -/
def EmailService.sendReminder (fromEmail toEmail githubUsername : String)
    (resend : SendRequest → ResendBehavior) : Bool × List SendRequest :=
  let req := EmailService.buildRequest fromEmail toEmail githubUsername
  match resend req with
  | ResendBehavior.accepted _ => (true, [req])
  | ResendBehavior.errorResult _ => (false, [req])
  | ResendBehavior.throws _ => (false, [req])

/-- Claim C6: for every recipient address, display identifier, sender and every
    behaviour of the delivery provider, sendReminder returns true exactly when
    the provider confirmed acceptance, never throws (it is total), and makes
    exactly one delivery attempt (hence at most one) per call. -/
theorem claim6_send_reminder_total (fromEmail toEmail githubUsername : String)
    (resend : SendRequest → ResendBehavior) :
    ((EmailService.sendReminder fromEmail toEmail githubUsername resend).1 = true
      ↔ (resend (EmailService.buildRequest fromEmail toEmail githubUsername)).isAccepted = true)
    ∧ (EmailService.sendReminder fromEmail toEmail githubUsername resend).2
        = [EmailService.buildRequest fromEmail toEmail githubUsername] := by
  rcases h : resend (EmailService.buildRequest fromEmail toEmail githubUsername) with
      id | msg | t <;>
    simp [EmailService.sendReminder, ResendBehavior.isAccepted, h]

/- Time model for github.service.ts.  Instants are milliseconds since the Unix
   epoch (Int).  A zone is its IANA name together with its UTC offset as a
   function of the instant (milliseconds added to a UTC instant to obtain the
   zone's wall-clock reading); fixed-offset zones are constant functions.
   date-fns reads a JS Date's calendar fields in the process's (system) zone;
   date-fns-tz's toZonedTime shifts a Date so that its system-zone fields show
   the target zone's wall clock.  Reading wall-clock fields back as an instant
   uses the zone's offset at the wall-clock value, which is exact for
   fixed-offset zones (the only zones the theorems instantiate). -/

def msPerDay : Int := 86400000

/-- A timezone: IANA name and offset function. -/
structure Zone where
  name : String
  off : Int → Int

/-- date-fns-tz toZonedTime(date, timeZone): a Date whose system-zone calendar
    fields equal the target zone's wall clock at `t`. -/
def toZonedTime (t : Int) (tz sys : Zone) : Int :=
  let wall := t + tz.off t
  wall - sys.off wall

/-- date-fns startOfDay: truncates the Date's system-zone calendar fields to
    local midnight. -/
def startOfDay (d : Int) (sys : Zone) : Int :=
  let wall := d + sys.off d
  let m := msPerDay * (wall.fdiv msPerDay)
  m - sys.off m

/-- date-fns endOfDay: sets the Date's system-zone calendar fields to
    23:59:59.999. -/
def endOfDay (d : Int) (sys : Zone) : Int :=
  let wall := d + sys.off d
  let m := msPerDay * (wall.fdiv msPerDay) + (msPerDay - 1)
  m - sys.off m

/-- JS Date.prototype.toDateString, abstracted to the system-zone calendar day
    number rendered as a string: distinct system-zone days give distinct
    strings, which is all the cache key construction uses. -/
def toDateString (t : Int) (sys : Zone) : String :=
  toString ((t + sys.off t).fdiv msPerDay)

/-- The [dayStart, dayEnd] bounds github.service.ts lines 64-67 computes and
    sends to the provider: startOfDay/endOfDay applied to the
    toZonedTime-shifted timestamp, all read in the system zone. -/
def GitHubService.queryWindow (now : Int) (tz sys : Zone) : Int × Int :=
  let zonedDate := toZonedTime now tz sys
  (startOfDay zonedDate sys, endOfDay zonedDate sys)

/-- The spec's day-window start ("convert to the target timezone's local
    wall-clock representation, truncate to local midnight for the start
    bound"): the instant at which the target zone's local calendar day
    containing `now` begins.  Spec-side definition, for comparison with the
    code's window. -/
def specLocalDayStart (now : Int) (tz : Zone) : Int :=
  let wall := now + tz.off now
  let m := msPerDay * (wall.fdiv msPerDay)
  m - tz.off m

/-- The system zone of a process running in UTC. -/
def utcZone : Zone := ⟨"UTC", fun _ => 0⟩

/-- America/New_York during standard time (UTC-5, January). -/
def newYorkWinterZone : Zone := ⟨"America/New_York", fun _ => -18000000⟩

/-- Claim C7 refuted at a concrete input (code bug): with the process running
    in UTC and target zone America/New_York (UTC-5 at the query instant
    2024-01-15T12:00:00Z), the window start the code sends is
    2024-01-15T00:00:00Z while the zone's local calendar day starts at
    2024-01-15T05:00:00Z; moreover with a UTC process zone the code's window
    always spans exactly 24 hours less one millisecond for every target zone,
    so a 23- or 25-hour local day is never produced.  The code truncates the
    toZonedTime-shifted timestamp in the process zone and never converts the
    local midnight back to a real instant. -/
theorem claim7_window_divergence :
    (GitHubService.queryWindow 1705320000000 newYorkWinterZone utcZone).1 = 1705276800000
    ∧ specLocalDayStart 1705320000000 newYorkWinterZone = 1705294800000
    ∧ ¬ (GitHubService.queryWindow 1705320000000 newYorkWinterZone utcZone).1
        = specLocalDayStart 1705320000000 newYorkWinterZone
    ∧ (∀ now tz, (GitHubService.queryWindow now tz utcZone).2
        - (GitHubService.queryWindow now tz utcZone).1 = msPerDay - 1) := by
  refine ⟨by decide, by decide, by decide, ?_⟩
  intro now tz
  simp [GitHubService.queryWindow, startOfDay, endOfDay, toZonedTime, utcZone]

/- The contribution cache (github.service.ts lines 18-19, 54-60, 97-104, and
   cleanCache lines 119-126).  The Map is modelled as an association list whose
   set operation replaces any previous binding of the key. -/

/-- A cache entry: `{ contributions, timestamp }`. -/
structure CacheEntry where
  contributions : Nat
  timestamp : Int
deriving DecidableEq

/-- The query sent to the GitHub GraphQL provider: login and the two window
    bounds (as instants; the code serialises them with toISOString). -/
structure Query where
  username : String
  fromTime : Int
  toTime : Int
deriving DecidableEq

/-- CACHE_TTL = 1000 * 60 * 60 (one hour), github.service.ts line 19. -/
def GitHubService.cacheTTL : Int := 1000 * 60 * 60

/-- Map.prototype.set: replace any previous binding of the key. -/
def mapSet (cache : List (String × CacheEntry)) (k : String) (v : CacheEntry) :
    List (String × CacheEntry) :=
  (k, v) :: cache.filter (fun p => p.1 != k)

/-- GitHubService.cleanCache: delete every entry with now - timestamp > TTL. -/
def GitHubService.cleanCache (cache : List (String × CacheEntry)) (now : Int) :
    List (String × CacheEntry) :=
  cache.filter (fun p => decide (now - p.2.timestamp ≤ GitHubService.cacheTTL))

/-- GitHubService.getContributionCount (github.service.ts lines 53-114) at one
    instant `now`, against a provider oracle, threading the cache state.
    Returns the result, the new cache, and the number of provider calls made
    (0 on a cache hit, 1 otherwise). -/
def GitHubService.getContributionCount (provider : Query → Except Thrown Nat)
    (sys tz : Zone) (username : String) (now : Int)
    (cache : List (String × CacheEntry)) :
    Except Thrown Nat × List (String × CacheEntry) × Nat :=
  let cacheKey := username ++ "-" ++ tz.name ++ "-" ++ toDateString now sys
  let fetched :=
    let zonedDate := toZonedTime now tz sys
    let dayStart := startOfDay zonedDate sys
    let dayEnd := endOfDay zonedDate sys
    match provider ⟨username, dayStart, dayEnd⟩ with
    | Except.ok totalContributions =>
        (Except.ok totalContributions,
          GitHubService.cleanCache (mapSet cache cacheKey ⟨totalContributions, now⟩) now,
          1)
    | Except.error e => (Except.error e, cache, 1)
  match cache.lookup cacheKey with
  | some cached =>
      if now - cached.timestamp < GitHubService.cacheTTL then
        (Except.ok cached.contributions, cache, 0)
      else fetched
  | none => fetched

/-- GitHubService.hasContributionToday (github.service.ts lines 36-45):
    count > 0, errors rethrown to the caller. -/
def GitHubService.hasContributionToday (provider : Query → Except Thrown Nat)
    (sys tz : Zone) (username : String) (now : Int)
    (cache : List (String × CacheEntry)) :
    Except Thrown Bool × List (String × CacheEntry) × Nat :=
  match GitHubService.getContributionCount provider sys tz username now cache with
  | (Except.ok count, c, n) => (Except.ok (decide (count > 0)), c, n)
  | (Except.error e, c, n) => (Except.error e, c, n)

/-- The checker with the cache removed — the spec's comparison point for "the
    cache must be safe to omit entirely".  Same fetch, no cache read or
    write; second component is the number of provider calls (always 1). -/
def GitHubService.getContributionCountNoCache (provider : Query → Except Thrown Nat)
    (sys tz : Zone) (username : String) (now : Int) : Except Thrown Nat × Nat :=
  let zonedDate := toZonedTime now tz sys
  let dayStart := startOfDay zonedDate sys
  let dayEnd := endOfDay zonedDate sys
  match provider ⟨username, dayStart, dayEnd⟩ with
  | Except.ok totalContributions => (Except.ok totalContributions, 1)
  | Except.error e => (Except.error e, 1)

/-- A deterministic provider for the C8 scenario: 3 contributions in the window
    of the New York day of 2024-01-14 (as the code computes it under a UTC
    process zone), 0 in every other window. -/
def demoProvider : Query → Except Thrown Nat :=
  fun q => if q.fromTime = 1705190400000 then Except.ok 3 else Except.ok 0

/-- Claim C8 refuted at a concrete input (code bug): two calls 30 minutes
    apart, at 2024-01-15T04:45:00Z and 2024-01-15T05:15:00Z (23:45 and 00:15 in
    the shifted New York day, process zone UTC), compute different query
    windows but the same cache key, because the key uses the system-zone
    calendar date while the window tracks the target zone's shifted day.  With
    the cache, the second call is served the first call's count (3); with the
    cache removed, the same call returns the new day's count (0) — observable
    behaviour differs beyond external-call volume. -/
theorem claim8_cache_divergence :
    ((GitHubService.getContributionCount demoProvider utcZone newYorkWinterZone
        "user" 1705295700000
        (GitHubService.getContributionCount demoProvider utcZone newYorkWinterZone
          "user" 1705293900000 []).2.1).1 = Except.ok 3)
    ∧ ((GitHubService.getContributionCountNoCache demoProvider utcZone
        newYorkWinterZone "user" 1705295700000).1 = Except.ok 0)
    ∧ ¬ ((GitHubService.getContributionCount demoProvider utcZone newYorkWinterZone
        "user" 1705295700000
        (GitHubService.getContributionCount demoProvider utcZone newYorkWinterZone
          "user" 1705293900000 []).2.1).1
      = (GitHubService.getContributionCountNoCache demoProvider utcZone
        newYorkWinterZone "user" 1705295700000).1) := by
  have h1 : (GitHubService.getContributionCount demoProvider utcZone newYorkWinterZone
      "user" 1705295700000
      (GitHubService.getContributionCount demoProvider utcZone newYorkWinterZone
        "user" 1705293900000 []).2.1).1 = Except.ok 3 := by rfl
  have h2 : (GitHubService.getContributionCountNoCache demoProvider utcZone
      newYorkWinterZone "user" 1705295700000).1 = Except.ok 0 := by rfl
  refine ⟨h1, h2, ?_⟩
  intro h
  rw [h1, h2] at h
  simp at h

/- ReminderScheduler (scheduler cron.ts).  A node-cron ScheduledTask is its
   cron expression, its timezone option and its running flag; the scheduler
   owns the list of registered tasks.  Firing is modelled by `firingJobs`: the
   registered running jobs whose expression matches a wall-clock hour:minute. -/

/-- One registered cron job. -/
structure ScheduledTask where
  cronExpression : String
  timezone : String
  running : Bool
deriving DecidableEq

/-- The scheduler state: its job list and configured timezone. -/
structure ReminderScheduler where
  jobs : List ScheduledTask
  timezone : String
deriving DecidableEq

/-- ReminderScheduler.scheduleReminder (cron.ts lines 30-83): split "HH:MM",
    build the expression "minute hour * * *", register the job. -/
def ReminderScheduler.scheduleReminder (s : ReminderScheduler) (time label : String) :
    ReminderScheduler :=
  let parts := time.splitOn ":"
  let hour := parts.headD ""
  let minute := (parts.drop 1).headD ""
  let cronExpression := minute ++ " " ++ hour ++ " * * *"
  ⟨s.jobs ++ [⟨cronExpression, s.timezone, true⟩], s.timezone⟩

/-- ReminderScheduler.start (cron.ts lines 16-23): register the default
    21:00 reminder. -/
def ReminderScheduler.start (s : ReminderScheduler) : ReminderScheduler :=
  s.scheduleReminder "21:00" "9 PM EST"

/-- ReminderScheduler.scheduleCustom (cron.ts lines 90-109). -/
def ReminderScheduler.scheduleCustom (s : ReminderScheduler)
    (cronExpression label : String) : ReminderScheduler :=
  ⟨s.jobs ++ [⟨cronExpression, s.timezone, true⟩], s.timezone⟩

/-- ReminderScheduler.stop (cron.ts lines 114-123): stop each job, then clear
    the list. -/
def ReminderScheduler.stop (s : ReminderScheduler) : ReminderScheduler :=
  ⟨[], s.timezone⟩

/-- ReminderScheduler.getActiveJobCount (cron.ts lines 138-140). -/
def ReminderScheduler.getActiveJobCount (s : ReminderScheduler) : Nat :=
  s.jobs.length

/-- Whether a daily cron expression "m h * * *" matches the wall clock
    hour:minute. -/
def cronMatchesDaily (expr : String) (hour minute : Nat) : Bool :=
  match expr.splitOn " " with
  | [m, h, "*", "*", "*"] => m.toNat? == some minute && h.toNat? == some hour
  | _ => false

/-- The registered running jobs that fire at a given wall-clock hour:minute:
    a scheduled orchestrator invocation can only come from one of these. -/
def ReminderScheduler.firingJobs (s : ReminderScheduler) (hour minute : Nat) :
    List ScheduledTask :=
  s.jobs.filter (fun j => j.running && cronMatchesDaily j.cronExpression hour minute)

/-- Claim C9: after stop() the active-job count is 0 whatever was registered
    before, no registered job can fire at any later wall-clock time (so no
    further scheduled orchestrator invocation occurs), and stop() is
    idempotent. -/
theorem claim9_stop_idempotent (s : ReminderScheduler) :
    (s.stop).getActiveJobCount = 0
    ∧ (∀ hour minute, (s.stop).firingJobs hour minute = [])
    ∧ s.stop.stop = s.stop := by
  exact ⟨rfl, fun _ _ => rfl, rfl⟩
